import Mathlib

/-!
Shallow embedding of the gpu-share-vm-manager API layer.

Sources embedded:
- `src/api/routes.rs` : the nine Axum route handlers, the `handle_error`
  mapping, and the request/response types.
- `src/core/resource_manager.rs` : `ResourceManager::check_quota`.
- `tests/vm_tests.rs` : the error classification used by
  `test_duplicate_vm_creation`.

The collaborator modules (`core::libvirt`, `core::vm`, `gpu::device`,
`monitoring::metrics`, `core::errors`) are not part of the repository
snapshot; the handlers are therefore parameterised over an environment
(`AppEnv`) supplying the collaborator results, and each handler is embedded
as a function from that environment and its request to the pair of
(trace of collaborator/lock events, HTTP result).  Where a claim is decided
by a missing collaborator, a definition explicitly modelled from the spec is
used and marked as such in its doc comment.

Machine integers (u32/u64) are modelled as `Nat`; the only arithmetic the
handlers perform on them is `memory_mb * 1024` (wrapping, taken mod 2^64)
and the lossless divisions/copies in the responses.
-/

/-- VM status enum (`core::vm::VMStatus`).  The definition is not in the
repository snapshot; the variants are those named by the spec state machine
(Requested, Defined, Running, Stopped, Deleting, Deleted, Error) plus
`Creating`, which `routes.rs` line 157 references explicitly. -/
inductive VMStatus
  | Requested
  | Defined
  | Creating
  | Running
  | Stopped
  | Deleting
  | Deleted
  | Error
deriving DecidableEq

/-- Modelled from the spec: `core::errors::GpuShareError` is not under src/
(only `resource_manager.rs` imports it); the variants are the error taxonomy
of spec section 7. -/
inductive GpuShareError
  | ValidationError
  | AlreadyExistsError
  | NotFoundError
  | InvalidStateError
  | ResourceConflictError
  | QuotaExceededError
  | HypervisorError
  | DeviceDiscoveryError
  | DegradedResourceWarning
deriving DecidableEq

/-- `core::vm::VMConfig` as constructed by the `create_vm` handler
(routes.rs lines 135-141): name, memory_kb, vcpus, disk_path, disk_size_gb.
`PathBuf` is modelled as `String`. -/
structure VMConfig where
  name : String
  memory_kb : Nat
  vcpus : Nat
  disk_path : String
  disk_size_gb : Nat
deriving DecidableEq

/-- `CreateVMRequest` (routes.rs lines 89-96). -/
structure CreateVMRequest where
  name : String
  cpu_cores : Nat
  memory_mb : Nat
  gpu_required : Bool
  disk_size_gb : Option Nat
deriving DecidableEq

/-- `VMResponse` (routes.rs lines 98-107). -/
structure VMResponse where
  id : String
  name : String
  status : VMStatus
  gpu_attached : Bool
  memory_mb : Nat
  cpu_cores : Nat
  disk_size_gb : Nat
deriving DecidableEq

/-- `AttachGPURequest` (routes.rs lines 109-112). -/
structure AttachGPURequest where
  gpu_id : String
deriving DecidableEq

/-- `gpu::device::GPUConfig` as constructed by `attach_gpu`
(routes.rs lines 289-294). -/
structure GPUConfig where
  gpu_id : String
  iommu_group : Nat
deriving DecidableEq

/-- `gpu::device::GPUDevice` is not under src/ and is only serialised by the
routes layer, so it is opaque here (one placeholder field). -/
structure GPUDevice where
  pci_address : String
deriving DecidableEq

/-- `monitoring::metrics::ResourceMetrics` is not under src/ and is only
serialised by the routes layer, so it is opaque here. -/
structure ResourceMetrics where
  sample : Nat
deriving DecidableEq

/-- `virDomainInfo` fields read by the handlers: state, memory (KiB),
nr_virt_cpu. -/
structure DomainInfo where
  state : Nat
  memory : Nat
  nr_virt_cpu : Nat
deriving DecidableEq

instance exceptDecEq {ε α : Type} [DecidableEq ε] [DecidableEq α] :
    DecidableEq (Except ε α) := fun a b =>
  match a, b with
  | Except.error x, Except.error y =>
      if h : x = y then Decidable.isTrue (by subst h; rfl)
      else Decidable.isFalse (by intro hc; injection hc; contradiction)
  | Except.error _, Except.ok _ =>
      Decidable.isFalse (by intro hc; exact Except.noConfusion hc)
  | Except.ok _, Except.error _ =>
      Decidable.isFalse (by intro hc; exact Except.noConfusion hc)
  | Except.ok x, Except.ok y =>
      if h : x = y then Decidable.isTrue (by subst h; rfl)
      else Decidable.isFalse (by intro hc; injection hc; contradiction)

/-- A libvirt domain handle, as observed by the handlers: the four fallible
accessors the routes call.  Errors are modelled by their display string. -/
structure Domain where
  get_uuid_string : Except String String
  get_name : Except String String
  get_info : Except String DomainInfo
  get_xml_desc : Except String String
deriving DecidableEq

/-- HTTP status codes used by routes.rs (axum `StatusCode`). -/
def StatusCode.OK : Nat := 200

/-- 400 Bad Request, used by `attach_gpu` when the IOMMU group is absent. -/
def StatusCode.BAD_REQUEST : Nat := 400

/-- 500 Internal Server Error, the image of `handle_error`. -/
def StatusCode.INTERNAL_SERVER_ERROR : Nat := 500

/-- `handle_error` (routes.rs lines 78-81): logs the error and returns
`INTERNAL_SERVER_ERROR` unconditionally, for every error it is given. -/
def handle_error (_err : String) : Nat :=
  StatusCode.INTERNAL_SERVER_ERROR

/-- `ResourceManager::check_quota` (resource_manager.rs lines 12-15):
a no-op that always allows. -/
def ResourceManager.check_quota (_user : String) (_config : VMConfig) :
    Except GpuShareError Unit :=
  Except.ok ()

/-- Observable events of a handler run: lock acquisitions on the three
shared managers and the collaborator calls the claims reason about.
`quotaCheck` is in the alphabet so that its absence from every trace is a
meaningful statement; routes.rs contains no call that would emit it. -/
inductive Event
  | lockLifecycle
  | lockGpu
  | lockMetrics
  | quotaCheck (user : String)
  | libvirtCreate (cfg : VMConfig)
  | libvirtList
  | libvirtLookup (id : String)
  | libvirtStart (id : String)
  | libvirtStop (id : String)
  | libvirtDelete (id : String)
  | gpuDiscover
  | gpuGetIommu (id : String)
  | gpuAttach (gpu_id : String)
  | metricsStart (id : String)
  | metricsStop (id : String)
  | metricsQuery (id : String)
deriving DecidableEq

/-- The collaborator environment of the handlers: one field per method the
routes call on `LibvirtManager`, `GPUManager` and `MetricsCollector`, plus
the (missing) `VMStatus::from(info.state)` conversion, left abstract. -/
structure AppEnv where
  create_vm : VMConfig → Except String Domain
  list_domains : Except String (List Domain)
  lookup_domain : String → Except String Domain
  start_domain : String → Except String Unit
  stop_domain : String → Except String Unit
  delete_domain : String → Except String Unit
  discover_gpus : Except String (List GPUDevice)
  get_iommu_group : String → Except String (Option Nat)
  attach_gpu_to_vm : Domain → GPUConfig → Except String Unit
  start_collection : String → Domain → Except String Unit
  get_vm_metrics : String → Except String (List ResourceMetrics)
  vmStatusFrom : Nat → VMStatus

/-- The `VMConfig` the `create_vm` handler builds from the request
(routes.rs lines 135-141): memory_kb is the wrapping u64 product
`memory_mb * 1024`, the disk path is the formatted qcow2 path, and
`disk_size_gb` defaults to 20 when the request omits it. -/
def configOf (params : CreateVMRequest) : VMConfig :=
  { name := params.name
    memory_kb := params.memory_mb * 1024 % 2 ^ 64
    vcpus := params.cpu_cores
    disk_path := "/var/lib/gpu-share/images/" ++ params.name ++ ".qcow2"
    disk_size_gb := params.disk_size_gb.getD 20 }

/-- The `create_vm` handler (routes.rs lines 128-163): locks libvirt, builds
the config, calls `LibvirtManager::create_vm` and `get_uuid_string`
(each failure mapped by `handle_error`), locks metrics and calls
`start_collection` ignoring its result (only logging on error), then
returns the response echoing the request with hardcoded status
`Creating` and `gpu_attached := gpu_required`. -/
def create_vm (env : AppEnv) (params : CreateVMRequest) :
    List Event × Except Nat VMResponse :=
  let config := configOf params
  let tr := [Event.lockLifecycle, Event.libvirtCreate config]
  match env.create_vm config with
  | Except.error e => (tr, Except.error (handle_error e))
  | Except.ok vm =>
    match vm.get_uuid_string with
    | Except.error e => (tr, Except.error (handle_error e))
    | Except.ok vm_id =>
      let tr := tr ++ [Event.lockMetrics, Event.metricsStart vm_id]
      let _logOnly :=
        match env.start_collection vm_id vm with
        | Except.error _ => ()
        | Except.ok _ => ()
      (tr, Except.ok
        { id := vm_id
          name := params.name
          status := VMStatus.Creating
          gpu_attached := params.gpu_required
          memory_mb := params.memory_mb
          cpu_cores := params.cpu_cores
          disk_size_gb := config.disk_size_gb })

/-- The `delete_vm` handler (routes.rs lines 250-262): locks libvirt, calls
`delete_domain`, returns 200 on success.  It performs no metrics call. -/
def delete_vm (env : AppEnv) (id : String) :
    List Event × Except Nat Nat :=
  let tr := [Event.lockLifecycle, Event.libvirtDelete id]
  match env.delete_domain id with
  | Except.error e => (tr, Except.error (handle_error e))
  | Except.ok _ => (tr, Except.ok StatusCode.OK)

/-- Needle-first character-list prefix test, used to embed Rust's
`str::contains`. -/
def charsStartWith : List Char → List Char → Bool
  | [], _ => true
  | _ :: _, [] => false
  | a :: as, b :: bs => a == b && charsStartWith as bs

/-- Substring containment on character lists: the needle starts at some
position of the haystack. -/
def charsContain (needle : List Char) : List Char → Bool
  | [] => charsStartWith needle []
  | c :: cs => charsStartWith needle (c :: cs) || charsContain needle cs

/-- Rust `hay.contains(needle)` on strings. -/
def strContains (needle hay : String) : Bool :=
  charsContain needle.toList hay.toList

/-- The `gpu_attached` computation shared verbatim by `list_vms`
(routes.rs lines 183-185) and `get_vm` (lines 213-215):
`domain.get_xml_desc(0).map(|xml| xml.contains("<hostdev")).unwrap_or(false)`. -/
def gpuAttachedOf (d : Domain) : Bool :=
  match d.get_xml_desc with
  | Except.ok xml => strContains "<hostdev" xml
  | Except.error _ => false

/-- The per-domain response built inside the `list_vms` loop
(routes.rs lines 176-189): info first, then each accessor mapped through
`handle_error` via `?`, status via `VMStatus::from(info.state)`,
`disk_size_gb` hardcoded to 0. -/
def vmResponseOfDomain (env : AppEnv) (domain : Domain) :
    Except String VMResponse :=
  match domain.get_info with
  | Except.error e => Except.error e
  | Except.ok info =>
    match domain.get_uuid_string with
    | Except.error e => Except.error e
    | Except.ok uuid =>
      match domain.get_name with
      | Except.error e => Except.error e
      | Except.ok name =>
        Except.ok
          { id := uuid
            name := name
            status := env.vmStatusFrom info.state
            gpu_attached := gpuAttachedOf domain
            memory_mb := info.memory / 1024
            cpu_cores := info.nr_virt_cpu
            disk_size_gb := 0 }

/-- The `for domain in domains` loop of `list_vms` (routes.rs
lines 174-191): responses accumulate in order and the first failing
accessor aborts the whole request. -/
def buildResponses (env : AppEnv) : List Domain → Except String (List VMResponse)
  | [] => Except.ok []
  | d :: ds =>
    match vmResponseOfDomain env d with
    | Except.error e => Except.error e
    | Except.ok r =>
      match buildResponses env ds with
      | Except.error e => Except.error e
      | Except.ok rs => Except.ok (r :: rs)

/-- The `list_vms` handler (routes.rs lines 165-194): locks libvirt, lists
domains, builds one response per domain, every failure mapped to
`handle_error`. -/
def list_vms (env : AppEnv) :
    List Event × Except Nat (List VMResponse) :=
  let tr := [Event.lockLifecycle, Event.libvirtList]
  match env.list_domains with
  | Except.error e => (tr, Except.error (handle_error e))
  | Except.ok domains =>
    match buildResponses env domains with
    | Except.error e => (tr, Except.error (handle_error e))
    | Except.ok responses => (tr, Except.ok responses)

/-- The `get_vm` handler (routes.rs lines 196-220): locks libvirt, looks the
domain up, and builds the response inline; unlike `list_vms` the `id` field
echoes the path parameter, and `disk_size_gb` is again hardcoded to 0. -/
def get_vm (env : AppEnv) (id : String) :
    List Event × Except Nat VMResponse :=
  let tr := [Event.lockLifecycle, Event.libvirtLookup id]
  match env.lookup_domain id with
  | Except.error e => (tr, Except.error (handle_error e))
  | Except.ok domain =>
    match domain.get_info with
    | Except.error e => (tr, Except.error (handle_error e))
    | Except.ok info =>
      match domain.get_name with
      | Except.error e => (tr, Except.error (handle_error e))
      | Except.ok name =>
        (tr, Except.ok
          { id := id
            name := name
            status := env.vmStatusFrom info.state
            gpu_attached := gpuAttachedOf domain
            memory_mb := info.memory / 1024
            cpu_cores := info.nr_virt_cpu
            disk_size_gb := 0 })

/-- The `start_vm` handler (routes.rs lines 222-234). -/
def start_vm (env : AppEnv) (id : String) :
    List Event × Except Nat Nat :=
  let tr := [Event.lockLifecycle, Event.libvirtStart id]
  match env.start_domain id with
  | Except.error e => (tr, Except.error (handle_error e))
  | Except.ok _ => (tr, Except.ok StatusCode.OK)

/-- The `stop_vm` handler (routes.rs lines 236-248). -/
def stop_vm (env : AppEnv) (id : String) :
    List Event × Except Nat Nat :=
  let tr := [Event.lockLifecycle, Event.libvirtStop id]
  match env.stop_domain id with
  | Except.error e => (tr, Except.error (handle_error e))
  | Except.ok _ => (tr, Except.ok StatusCode.OK)

/-- The `list_gpus` handler (routes.rs lines 264-274): locks the GPU
manager only. -/
def list_gpus (env : AppEnv) :
    List Event × Except Nat (List GPUDevice) :=
  let tr := [Event.lockGpu, Event.gpuDiscover]
  match env.discover_gpus with
  | Except.error e => (tr, Except.error (handle_error e))
  | Except.ok gpus => (tr, Except.ok gpus)

/-- The `attach_gpu` handler (routes.rs lines 276-300): locks libvirt then
the GPU manager, looks the domain up, resolves the IOMMU group (absent
group maps to 400), then attaches. -/
def attach_gpu (env : AppEnv) (id : String) (request : AttachGPURequest) :
    List Event × Except Nat Nat :=
  let tr := [Event.lockLifecycle, Event.lockGpu, Event.libvirtLookup id]
  match env.lookup_domain id with
  | Except.error e => (tr, Except.error (handle_error e))
  | Except.ok domain =>
    let tr := tr ++ [Event.gpuGetIommu request.gpu_id]
    match env.get_iommu_group request.gpu_id with
    | Except.error e => (tr, Except.error (handle_error e))
    | Except.ok none => (tr, Except.error StatusCode.BAD_REQUEST)
    | Except.ok (some group) =>
      let gpu_config : GPUConfig :=
        { gpu_id := request.gpu_id, iommu_group := group }
      let tr := tr ++ [Event.gpuAttach gpu_config.gpu_id]
      match env.attach_gpu_to_vm domain gpu_config with
      | Except.error e => (tr, Except.error (handle_error e))
      | Except.ok _ => (tr, Except.ok StatusCode.OK)

/-- The `get_metrics` handler (routes.rs lines 302-313): locks the metrics
collector only. -/
def get_metrics (env : AppEnv) (id : String) :
    List Event × Except Nat (List ResourceMetrics) :=
  let tr := [Event.lockMetrics, Event.metricsQuery id]
  match env.get_vm_metrics id with
  | Except.error e => (tr, Except.error (handle_error e))
  | Except.ok ms => (tr, Except.ok ms)

-- a concrete domain and environment used by witnesses and counterexamples

/-- A concrete healthy domain handle. -/
def domainA : Domain :=
  { get_uuid_string := Except.ok "uuid-a"
    get_name := Except.ok "vm-a"
    get_info := Except.ok { state := 1, memory := 1048576, nr_virt_cpu := 2 }
    get_xml_desc := Except.ok "<domain><devices><hostdev/></devices></domain>" }

/-- A concrete environment in which every collaborator call succeeds. -/
def envOk : AppEnv :=
  { create_vm := fun _ => Except.ok domainA
    list_domains := Except.ok [domainA]
    lookup_domain := fun _ => Except.ok domainA
    start_domain := fun _ => Except.ok ()
    stop_domain := fun _ => Except.ok ()
    delete_domain := fun _ => Except.ok ()
    discover_gpus := Except.ok []
    get_iommu_group := fun _ => Except.ok (some 3)
    attach_gpu_to_vm := fun _ _ => Except.ok ()
    start_collection := fun _ _ => Except.ok ()
    get_vm_metrics := fun _ => Except.ok []
    vmStatusFrom := fun _ => VMStatus.Running }

/-- A concrete valid creation request with `disk_size_gb` omitted. -/
def reqA : CreateVMRequest :=
  { name := "vm-a"
    cpu_cores := 2
    memory_mb := 1024
    gpu_required := false
    disk_size_gb := none }

/-- Recogniser for the Lifecycle Manager lock event. -/
def isLockLifecycle : Event → Bool
  | Event.lockLifecycle => true
  | _ => false

/-- Recogniser for the GPU (Reservation) Manager lock event. -/
def isLockGpu : Event → Bool
  | Event.lockGpu => true
  | _ => false

/-- Recogniser for a quota-collaborator check event. -/
def isQuotaCheck : Event → Bool
  | Event.quotaCheck _ => true
  | _ => false

/-- Recogniser for a Lifecycle Manager create call. -/
def isLibvirtCreate : Event → Bool
  | Event.libvirtCreate _ => true
  | _ => false

/-- Recogniser for a GPU attach call. -/
def isGpuAttach : Event → Bool
  | Event.gpuAttach _ => true
  | _ => false

/-- Recogniser for a metrics start-collection notification. -/
def isMetricsStart : Event → Bool
  | Event.metricsStart _ => true
  | _ => false

/-- Recogniser for a metrics stop-collection notification. -/
def isMetricsStop : Event → Bool
  | Event.metricsStop _ => true
  | _ => false

/-- True when no GPU-manager lock is taken before the first Lifecycle
Manager lock in the trace. -/
def noGpuBeforeLifecycle : List Event → Bool
  | [] => true
  | e :: rest =>
    if isLockLifecycle e then true
    else if isLockGpu e then false
    else noGpuBeforeLifecycle rest

/-- An operation "touches both managers" when its trace acquires both the
Lifecycle Manager lock and the GPU (Reservation) Manager lock. -/
def touchesBothManagers (tr : List Event) : Bool :=
  tr.any isLockLifecycle && tr.any isLockGpu

/-- The fixed lock-order discipline: whenever a trace touches both
managers, the Lifecycle Manager lock comes first. -/
def lockOrderOk (tr : List Event) : Bool :=
  !touchesBothManagers tr || noGpuBeforeLifecycle tr

/-- True when some quota check occurs before the first Lifecycle Manager
create call of the trace (vacuously true when no create call occurs). -/
def quotaBeforeLifecycleCreate : List Event → Bool
  | [] => true
  | e :: rest =>
    if isQuotaCheck e then true
    else if isLibvirtCreate e then false
    else quotaBeforeLifecycleCreate rest

/-- The set of live (defined, non-deleted) domain names held by the
Lifecycle Manager. -/
structure LibvirtState where
  domains : List String
deriving DecidableEq

/-- Hypervisor calls observable from `LibvirtManager::create_vm`: the
domain definition. -/
inductive HvEvent
  | define (name : String)
deriving DecidableEq

/-- Modelled from the spec: config validation of spec section 4.2
("validates config (non-empty unique name, vcpus ≥ 1, memory ≥ platform
minimum, disk path resolvable)"); `core::libvirt::LibvirtManager` is not
under src/.  The platform minimum and path resolvability are parameters,
since the spec does not fix them. -/
def configValid (minMemoryKb : Nat) (resolvable : String → Bool)
    (cfg : VMConfig) : Bool :=
  cfg.name != "" && decide (1 ≤ cfg.vcpus) &&
    decide (minMemoryKb ≤ cfg.memory_kb) && resolvable cfg.disk_path

/-- Modelled from the spec: `LibvirtManager::create_vm` is not under src/
(only its callers in routes.rs and tests/vm_tests.rs are).  Spec section
4.2: `create(config)` validates the config, fails with `ValidationError`
on bad input, `AlreadyExistsError` if the name collides with a live VM,
defines a new domain, and on backend failure fails with `HypervisorError`
rolling back to no-entry.  `defineOk` parameterises hypervisor success;
the returned trace lists the hypervisor calls made. -/
def LibvirtManager.create_vm (minMemoryKb : Nat)
    (resolvable : String → Bool) (defineOk : VMConfig → Bool)
    (st : LibvirtState) (cfg : VMConfig) :
    List HvEvent × Except GpuShareError LibvirtState :=
  if !configValid minMemoryKb resolvable cfg then
    ([], Except.error GpuShareError.ValidationError)
  else if st.domains.contains cfg.name then
    ([], Except.error GpuShareError.AlreadyExistsError)
  else if defineOk cfg then
    ([HvEvent.define cfg.name], Except.ok { domains := cfg.name :: st.domains })
  else
    ([HvEvent.define cfg.name], Except.error GpuShareError.HypervisorError)

/-- The error classification performed by `test_duplicate_vm_creation`
(tests/vm_tests.rs lines 304-310): a failure is accepted as a duplicate
exactly when its message contains the substring "already exists". -/
def duplicateErrAccepted (msg : String) : Bool :=
  strContains "already exists" msg

/-- The successful response of `create_vm envOk reqA`. -/
def respA : VMResponse :=
  { id := "uuid-a"
    name := "vm-a"
    status := VMStatus.Creating
    gpu_attached := false
    memory_mb := 1024
    cpu_cores := 2
    disk_size_gb := 20 }

/-- A creation request that does supply a disk size. -/
def reqB : CreateVMRequest :=
  { name := "vm-b"
    cpu_cores := 4
    memory_mb := 8192
    gpu_required := true
    disk_size_gb := some 42 }

/-- An environment whose libvirt calls fail. -/
def envFail : AppEnv :=
  { envOk with
    create_vm := fun _ => Except.error "boom"
    delete_domain := fun _ => Except.error "boom" }

/-- An environment in which only the metrics collaborator fails. -/
def envMetricsFail : AppEnv :=
  { envOk with start_collection := fun _ _ => Except.error "metrics down" }

/-- The response `list_vms envOk` and `get_vm envOk "uuid-a"` both build for
`domainA`. -/
def respListA : VMResponse :=
  { id := "uuid-a"
    name := "vm-a"
    status := VMStatus.Running
    gpu_attached := true
    memory_mb := 1024
    cpu_cores := 2
    disk_size_gb := 0 }

/-- A config whose memory is far below a 512 MiB platform minimum. -/
def cfgLowMem : VMConfig :=
  { name := "low-mem"
    memory_kb := 1024
    vcpus := 2
    disk_path := "/var/lib/gpu-share/images/low-mem.qcow2"
    disk_size_gb := 10 }

theorem lockOrderOk_cons_lifecycle (tr : List Event) :
    lockOrderOk (Event.lockLifecycle :: tr) = true := by
  simp [lockOrderOk, noGpuBeforeLifecycle, isLockLifecycle]

theorem lockOrderOk_of_no_lifecycle (tr : List Event)
    (h : tr.any isLockLifecycle = false) : lockOrderOk tr = true := by
  simp [lockOrderOk, touchesBothManagers, h]

/-- C1 counterexample: a fully successful create returns status `Creating`,
which is not `Defined`, so the claim that a successful create reports
status `Defined` fails at this concrete request. -/
theorem create_vm_status_cex :
    (create_vm envOk reqA).2 = Except.ok respA ∧
      respA.status = VMStatus.Creating ∧ VMStatus.Creating ≠ VMStatus.Defined := by
  decide

/-- C1 (amended): every successful create returns a response whose status
is `Creating` and whose name, vcpu count and memory echo the request
exactly. -/
theorem create_vm_echoes_request_with_creating_status :
    ∀ (env : AppEnv) (params : CreateVMRequest) (r : VMResponse),
      (create_vm env params).2 = Except.ok r →
      r.status = VMStatus.Creating ∧ r.name = params.name ∧
        r.cpu_cores = params.cpu_cores ∧ r.memory_mb = params.memory_mb := by
  intro env params r h
  unfold create_vm at h
  rcases h1 : env.create_vm (configOf params) with e | vm
  · simp [h1] at h
  · rcases h2 : vm.get_uuid_string with e | vm_id
    · simp [h1, h2] at h
    · simp [h1, h2] at h
      subst h
      exact ⟨rfl, rfl, rfl, rfl⟩

/-- C1 witness: the amended statement applied to the concrete successful
run `create_vm envOk reqA`. -/
theorem create_vm_echoes_request_witness :
    respA.status = VMStatus.Creating ∧ respA.name = reqA.name ∧
      respA.cpu_cores = reqA.cpu_cores ∧ respA.memory_mb = reqA.memory_mb :=
  create_vm_echoes_request_with_creating_status envOk reqA respA (by decide)

/-- C2 counterexample: on a concrete successful create, the handler calls
the Lifecycle Manager but its trace contains no quota check at all, so no
quota check precedes the lifecycle call. -/
theorem create_vm_quota_cex :
    (create_vm envOk reqA).1.any isLibvirtCreate = true ∧
      (create_vm envOk reqA).1.any isQuotaCheck = false ∧
      quotaBeforeLifecycleCreate (create_vm envOk reqA).1 = false := by
  decide

/-- C2 (amended): the create handler never invokes the quota collaborator
on any run, and `ResourceManager::check_quota` itself is a no-op that
always allows, so a `QuotaExceededError` denial can never occur. -/
theorem create_vm_never_checks_quota :
    (∀ (env : AppEnv) (params : CreateVMRequest),
      (create_vm env params).1.any isQuotaCheck = false) ∧
    (∀ (user : String) (cfg : VMConfig),
      ResourceManager.check_quota user cfg = Except.ok ()) := by
  constructor
  · intro env params
    unfold create_vm
    rcases h1 : env.create_vm (configOf params) with e | vm
    · simp [h1, isQuotaCheck]
    · rcases h2 : vm.get_uuid_string with e | vm_id
      · simp [h1, h2, isQuotaCheck]
      · simp [h1, h2, isQuotaCheck]
  · intro user cfg
    rfl

/-- C3 counterexample: a concrete successful delete whose trace contains
no stop-collection notification to the metrics collaborator. -/
theorem delete_vm_no_stop_notification_cex :
    (delete_vm envOk "uuid-a").2 = Except.ok StatusCode.OK ∧
      (delete_vm envOk "uuid-a").1.any isMetricsStop = false := by
  decide

/-- C3 (amended): every successful create emits a start-collection
notification, but delete emits no stop-collection notification on any run
(the delete handler never contacts the metrics collaborator). -/
theorem create_notifies_metrics_delete_does_not :
    (∀ (env : AppEnv) (params : CreateVMRequest) (r : VMResponse),
      (create_vm env params).2 = Except.ok r →
      (create_vm env params).1.any isMetricsStart = true) ∧
    (∀ (env : AppEnv) (id : String),
      (delete_vm env id).1.any isMetricsStop = false) := by
  constructor
  · intro env params r h
    unfold create_vm at h ⊢
    rcases h1 : env.create_vm (configOf params) with e | vm
    · simp [h1] at h
    · rcases h2 : vm.get_uuid_string with e | vm_id
      · simp [h1, h2] at h
      · simp [h1, h2, isMetricsStart]
  · intro env id
    unfold delete_vm
    rcases h1 : env.delete_domain id with e | u
    · simp [isMetricsStop]
    · simp [isMetricsStop]

/-- C3 witness: the create half of the amended statement applied to the
concrete successful run `create_vm envOk reqA`. -/
theorem create_notifies_metrics_witness :
    (create_vm envOk reqA).1.any isMetricsStart = true :=
  create_notifies_metrics_delete_does_not.1 envOk reqA respA (by decide)

/-- C4: for every route handler and every environment, whenever the
handler's trace touches both the Lifecycle Manager and the GPU Reservation
Manager, the Lifecycle Manager lock is acquired first (`attach_gpu` is the
only handler that touches both, and it locks libvirt before the GPU
manager). -/
theorem lock_order_lifecycle_before_reservation :
    (∀ (env : AppEnv) (params : CreateVMRequest),
      lockOrderOk (create_vm env params).1 = true) ∧
    (∀ (env : AppEnv), lockOrderOk (list_vms env).1 = true) ∧
    (∀ (env : AppEnv) (id : String), lockOrderOk (get_vm env id).1 = true) ∧
    (∀ (env : AppEnv) (id : String), lockOrderOk (delete_vm env id).1 = true) ∧
    (∀ (env : AppEnv) (id : String), lockOrderOk (start_vm env id).1 = true) ∧
    (∀ (env : AppEnv) (id : String), lockOrderOk (stop_vm env id).1 = true) ∧
    (∀ (env : AppEnv), lockOrderOk (list_gpus env).1 = true) ∧
    (∀ (env : AppEnv) (id : String) (req : AttachGPURequest),
      lockOrderOk (attach_gpu env id req).1 = true) ∧
    (∀ (env : AppEnv) (id : String), lockOrderOk (get_metrics env id).1 = true) := by
  refine ⟨?_, ?_, ?_, ?_, ?_, ?_, ?_, ?_, ?_⟩
  · intro env params
    unfold create_vm
    rcases h1 : env.create_vm (configOf params) with e | vm
    · simp [h1, lockOrderOk_cons_lifecycle]
    · rcases h2 : vm.get_uuid_string with e | vm_id
      · simp [h1, h2, lockOrderOk_cons_lifecycle]
      · simp [h1, h2, lockOrderOk_cons_lifecycle]
  · intro env
    unfold list_vms
    rcases h1 : env.list_domains with e | domains
    · simp [h1, lockOrderOk_cons_lifecycle]
    · rcases h2 : buildResponses env domains with e | rs
      · simp [h1, h2, lockOrderOk_cons_lifecycle]
      · simp [h1, h2, lockOrderOk_cons_lifecycle]
  · intro env id
    unfold get_vm
    rcases h1 : env.lookup_domain id with e | d
    · simp [h1, lockOrderOk_cons_lifecycle]
    · rcases h2 : d.get_info with e | info
      · simp [h1, h2, lockOrderOk_cons_lifecycle]
      · rcases h3 : d.get_name with e | n
        · simp [h1, h2, h3, lockOrderOk_cons_lifecycle]
        · simp [h1, h2, h3, lockOrderOk_cons_lifecycle]
  · intro env id
    unfold delete_vm
    rcases h1 : env.delete_domain id with e | u
    · simp [h1, lockOrderOk_cons_lifecycle]
    · simp [h1, lockOrderOk_cons_lifecycle]
  · intro env id
    unfold start_vm
    rcases h1 : env.start_domain id with e | u
    · simp [h1, lockOrderOk_cons_lifecycle]
    · simp [h1, lockOrderOk_cons_lifecycle]
  · intro env id
    unfold stop_vm
    rcases h1 : env.stop_domain id with e | u
    · simp [h1, lockOrderOk_cons_lifecycle]
    · simp [h1, lockOrderOk_cons_lifecycle]
  · intro env
    unfold list_gpus
    rcases h1 : env.discover_gpus with e | gpus
    · simp [h1, lockOrderOk, touchesBothManagers, isLockLifecycle]
    · simp [h1, lockOrderOk, touchesBothManagers, isLockLifecycle]
  · intro env id req
    unfold attach_gpu
    rcases h1 : env.lookup_domain id with e | d
    · simp [h1, lockOrderOk_cons_lifecycle]
    · rcases h2 : env.get_iommu_group req.gpu_id with e | og
      · simp [h1, h2, lockOrderOk_cons_lifecycle]
      · rcases og with _ | g
        · simp [h1, h2, lockOrderOk_cons_lifecycle]
        · rcases h3 : env.attach_gpu_to_vm d
            { gpu_id := req.gpu_id, iommu_group := g } with e | u
          · simp [h1, h2, h3, lockOrderOk_cons_lifecycle]
          · simp [h1, h2, h3, lockOrderOk_cons_lifecycle]
  · intro env id
    unfold get_metrics
    rcases h1 : env.get_vm_metrics id with e | ms
    · simp [h1, lockOrderOk, touchesBothManagers, isLockLifecycle]
    · simp [h1, lockOrderOk, touchesBothManagers, isLockLifecycle]

/-- C5: any config failing validation (empty name, vcpus < 1, memory below
the platform minimum, or unresolvable disk path) is rejected with
`ValidationError`, with an empty hypervisor trace (no domain defined) and
no state returned. -/
theorem invalid_config_rejected_before_hypervisor :
    ∀ (minMemoryKb : Nat) (resolvable : String → Bool)
      (defineOk : VMConfig → Bool) (st : LibvirtState) (cfg : VMConfig),
      (cfg.name = "" ∨ cfg.vcpus < 1 ∨ cfg.memory_kb < minMemoryKb ∨
        resolvable cfg.disk_path = false) →
      LibvirtManager.create_vm minMemoryKb resolvable defineOk st cfg =
        ([], Except.error GpuShareError.ValidationError) := by
  intro minMemoryKb resolvable defineOk st cfg h
  have hv : configValid minMemoryKb resolvable cfg = false := by
    unfold configValid
    rcases h with h | h | h | h
    · simp [h]
    · have hn : ¬ 1 ≤ cfg.vcpus := Nat.not_le.mpr h
      simp [hn]
    · have hn : ¬ minMemoryKb ≤ cfg.memory_kb := Nat.not_le.mpr h
      simp [hn]
    · simp [h]
  unfold LibvirtManager.create_vm
  rw [hv]
  rfl

/-- C5 witness: a config with 1 MiB of memory against a 512 MiB platform
minimum is rejected with `ValidationError` and an empty hypervisor trace. -/
theorem invalid_config_rejected_witness :
    LibvirtManager.create_vm 524288 (fun _ => true) (fun _ => true)
      { domains := [] } cfgLowMem =
      ([], Except.error GpuShareError.ValidationError) :=
  invalid_config_rejected_before_hypervisor 524288 (fun _ => true)
    (fun _ => true) { domains := [] } cfgLowMem
    (Or.inr (Or.inr (Or.inl (by decide))))

/-- C6 counterexample: two failures of different categories (a validation
failure and a not-found failure) are mapped by `handle_error` to the same
status, and the duplicate-creation test classifies failures purely by the
substring "already exists" of the message. -/
theorem error_category_collapse_cex :
    handle_error "Validation failed: memory too small" =
      handle_error "Domain not found" ∧
      handle_error "Domain not found" = StatusCode.INTERNAL_SERVER_ERROR ∧
      duplicateErrAccepted "Domain vm-a already exists" = true ∧
      duplicateErrAccepted "Domain not found" = false := by
  decide

/-- C6 (amended): failures are not surfaced as distinct tagged categories:
`handle_error` maps every error to `INTERNAL_SERVER_ERROR`, so every
failing create/delete outcome is 500 and every failing attach outcome is
500 or (for a missing IOMMU group) 400. -/
theorem failures_collapse_to_one_status :
    (∀ e : String, handle_error e = StatusCode.INTERNAL_SERVER_ERROR) ∧
    (∀ (env : AppEnv) (params : CreateVMRequest) (c : Nat),
      (create_vm env params).2 = Except.error c →
      c = StatusCode.INTERNAL_SERVER_ERROR) ∧
    (∀ (env : AppEnv) (id : String) (c : Nat),
      (delete_vm env id).2 = Except.error c →
      c = StatusCode.INTERNAL_SERVER_ERROR) ∧
    (∀ (env : AppEnv) (id : String) (req : AttachGPURequest) (c : Nat),
      (attach_gpu env id req).2 = Except.error c →
      c = StatusCode.INTERNAL_SERVER_ERROR ∨ c = StatusCode.BAD_REQUEST) := by
  refine ⟨fun e => rfl, ?_, ?_, ?_⟩
  · intro env params c h
    unfold create_vm at h
    rcases h1 : env.create_vm (configOf params) with e | vm
    · simp [h1, handle_error, StatusCode.INTERNAL_SERVER_ERROR] at h ⊢
      omega
    · rcases h2 : vm.get_uuid_string with e | vm_id
      · simp [h1, h2, handle_error, StatusCode.INTERNAL_SERVER_ERROR] at h ⊢
        omega
      · simp [h1, h2] at h
  · intro env id c h
    unfold delete_vm at h
    rcases h1 : env.delete_domain id with e | u
    · simp [h1, handle_error, StatusCode.INTERNAL_SERVER_ERROR] at h ⊢
      omega
    · simp [h1] at h
  · intro env id req c h
    unfold attach_gpu at h
    rcases h1 : env.lookup_domain id with e | d
    · left
      simp [h1, handle_error, StatusCode.INTERNAL_SERVER_ERROR] at h ⊢
      omega
    · rcases h2 : env.get_iommu_group req.gpu_id with e | og
      · left
        simp [h1, h2, handle_error, StatusCode.INTERNAL_SERVER_ERROR] at h ⊢
        omega
      · rcases og with _ | g
        · right
          simp [h1, h2, StatusCode.BAD_REQUEST] at h ⊢
          omega
        · rcases h3 : env.attach_gpu_to_vm d
            { gpu_id := req.gpu_id, iommu_group := g } with e | u
          · left
            simp [h1, h2, h3, handle_error,
              StatusCode.INTERNAL_SERVER_ERROR] at h ⊢
            omega
          · simp [h1, h2, h3] at h

/-- C6 witness: the amended statement applied to a concrete failing
create. -/
theorem failures_collapse_witness :
    (create_vm envFail reqA).2 = Except.error 500 ∧
      (500 : Nat) = StatusCode.INTERNAL_SERVER_ERROR :=
  ⟨by decide, failures_collapse_to_one_status.2.1 envFail reqA 500 (by decide)⟩

theorem vmResponseOfDomain_disk_zero (env : AppEnv) (d : Domain)
    (r : VMResponse) (h : vmResponseOfDomain env d = Except.ok r) :
    r.disk_size_gb = 0 := by
  unfold vmResponseOfDomain at h
  rcases h1 : d.get_info with e | info
  · simp [h1] at h
  · rcases h2 : d.get_uuid_string with e | uuid
    · simp [h1, h2] at h
    · rcases h3 : d.get_name with e | name
      · simp [h1, h2, h3] at h
      · simp [h1, h2, h3] at h
        subst h
        rfl

theorem buildResponses_disk_zero (env : AppEnv) :
    ∀ (l : List Domain) (rs : List VMResponse),
      buildResponses env l = Except.ok rs → ∀ r ∈ rs, r.disk_size_gb = 0 := by
  intro l
  induction l with
  | nil =>
    intro rs h r hr
    unfold buildResponses at h
    simp at h
    subst h
    simp at hr
  | cons d ds ih =>
    intro rs h r hr
    unfold buildResponses at h
    rcases h1 : vmResponseOfDomain env d with e | r0
    · simp [h1] at h
    · rcases h2 : buildResponses env ds with e | rs0
      · simp [h1, h2] at h
      · simp [h1, h2] at h
        subst h
        rcases List.mem_cons.mp hr with hr0 | hr0
        · subst hr0
          exact vmResponseOfDomain_disk_zero env d r h1
        · exact ih rs0 h2 r hr0

/-- C7: every response produced by `list_vms` and every response produced
by `get_vm` reports `disk_size_gb = 0`, whatever the domains report. -/
theorem list_get_disk_size_always_zero :
    (∀ (env : AppEnv) (rs : List VMResponse),
      (list_vms env).2 = Except.ok rs → ∀ r ∈ rs, r.disk_size_gb = 0) ∧
    (∀ (env : AppEnv) (id : String) (r : VMResponse),
      (get_vm env id).2 = Except.ok r → r.disk_size_gb = 0) := by
  constructor
  · intro env rs h r hr
    unfold list_vms at h
    rcases h1 : env.list_domains with e | domains
    · simp [h1] at h
    · rcases h2 : buildResponses env domains with e | rs0
      · simp [h1, h2] at h
      · simp [h1, h2] at h
        subst h
        exact buildResponses_disk_zero env domains rs0 h2 r hr
  · intro env id r h
    unfold get_vm at h
    rcases h1 : env.lookup_domain id with e | d
    · simp [h1] at h
    · rcases h2 : d.get_info with e | info
      · simp [h1, h2] at h
      · rcases h3 : d.get_name with e | name
        · simp [h1, h2, h3] at h
        · simp [h1, h2, h3] at h
          subst h
          rfl

/-- C7 witness: the list half applied to the concrete environment with one
healthy domain. -/
theorem disk_size_zero_witness : respListA.disk_size_gb = 0 :=
  list_get_disk_size_always_zero.1 envOk [respListA] (by decide) respListA
    (by decide)

/-- C8: the config built by create uses disk size 20 when the request
omits `disk_size_gb` and the supplied value otherwise, and the create
response reports exactly the config's disk size. -/
theorem disk_size_default_20_or_exact :
    (∀ params : CreateVMRequest, params.disk_size_gb = none →
      (configOf params).disk_size_gb = 20) ∧
    (∀ (params : CreateVMRequest) (v : Nat), params.disk_size_gb = some v →
      (configOf params).disk_size_gb = v) ∧
    (∀ (env : AppEnv) (params : CreateVMRequest) (r : VMResponse),
      (create_vm env params).2 = Except.ok r →
      r.disk_size_gb = (configOf params).disk_size_gb) := by
  refine ⟨?_, ?_, ?_⟩
  · intro params h
    simp [configOf, h]
  · intro params v h
    simp [configOf, h]
  · intro env params r h
    unfold create_vm at h
    rcases h1 : env.create_vm (configOf params) with e | vm
    · simp [h1] at h
    · rcases h2 : vm.get_uuid_string with e | vm_id
      · simp [h1, h2] at h
      · simp [h1, h2] at h
        subst h
        rfl

/-- C8 witness: the omitted case defaults to 20, the supplied case echoes
42, and the concrete successful response reports the config's size. -/
theorem disk_size_default_witness :
    (configOf reqA).disk_size_gb = 20 ∧ (configOf reqB).disk_size_gb = 42 ∧
      respA.disk_size_gb = (configOf reqA).disk_size_gb :=
  ⟨disk_size_default_20_or_exact.1 reqA rfl,
   disk_size_default_20_or_exact.2.1 reqB 42 rfl,
   disk_size_default_20_or_exact.2.2 envOk reqA respA (by decide)⟩

/-- C9: when the VM is created and its uuid read successfully but the
metrics collaborator's `start_collection` fails, create still returns the
full successful response. -/
theorem create_succeeds_despite_metrics_failure :
    ∀ (env : AppEnv) (params : CreateVMRequest) (vm : Domain)
      (vm_id e : String),
      env.create_vm (configOf params) = Except.ok vm →
      vm.get_uuid_string = Except.ok vm_id →
      env.start_collection vm_id vm = Except.error e →
      (create_vm env params).2 = Except.ok
        { id := vm_id
          name := params.name
          status := VMStatus.Creating
          gpu_attached := params.gpu_required
          memory_mb := params.memory_mb
          cpu_cores := params.cpu_cores
          disk_size_gb := params.disk_size_gb.getD 20 } := by
  intro env params vm vm_id e h1 h2 _h3
  unfold create_vm
  simp only [h1, h2]
  simp [configOf]

/-- C9 witness: the statement applied to the environment whose metrics
collaborator fails. -/
theorem metrics_failure_ignored_witness :
    (create_vm envMetricsFail reqA).2 = Except.ok respA :=
  create_succeeds_despite_metrics_failure envMetricsFail reqA domainA
    "uuid-a" "metrics down" rfl rfl rfl

/-- C10: the create response's `gpu_attached` echoes the request's
`gpu_required` although create's trace contains no GPU attach call, while
list/get responses compute `gpu_attached` from the domain XML: true exactly
when the XML is readable and contains the substring "<hostdev", false when
the XML cannot be read. -/
theorem gpu_attached_semantics :
    (∀ (env : AppEnv) (params : CreateVMRequest) (r : VMResponse),
      (create_vm env params).2 = Except.ok r →
      r.gpu_attached = params.gpu_required) ∧
    (∀ (env : AppEnv) (params : CreateVMRequest),
      (create_vm env params).1.any isGpuAttach = false) ∧
    (∀ (env : AppEnv) (d : Domain) (r : VMResponse),
      vmResponseOfDomain env d = Except.ok r →
      r.gpu_attached = gpuAttachedOf d) ∧
    (∀ (env : AppEnv) (id : String) (r : VMResponse),
      (get_vm env id).2 = Except.ok r →
      ∃ d, env.lookup_domain id = Except.ok d ∧
        r.gpu_attached = gpuAttachedOf d) ∧
    (∀ (d : Domain) (xml : String), d.get_xml_desc = Except.ok xml →
      gpuAttachedOf d = strContains "<hostdev" xml) ∧
    (∀ (d : Domain) (e : String), d.get_xml_desc = Except.error e →
      gpuAttachedOf d = false) := by
  refine ⟨?_, ?_, ?_, ?_, ?_, ?_⟩
  · intro env params r h
    unfold create_vm at h
    rcases h1 : env.create_vm (configOf params) with e | vm
    · simp [h1] at h
    · rcases h2 : vm.get_uuid_string with e | vm_id
      · simp [h1, h2] at h
      · simp [h1, h2] at h
        subst h
        rfl
  · intro env params
    unfold create_vm
    rcases h1 : env.create_vm (configOf params) with e | vm
    · simp [h1, isGpuAttach]
    · rcases h2 : vm.get_uuid_string with e | vm_id
      · simp [h1, h2, isGpuAttach]
      · simp [h1, h2, isGpuAttach]
  · intro env d r h
    unfold vmResponseOfDomain at h
    rcases h1 : d.get_info with e | info
    · simp [h1] at h
    · rcases h2 : d.get_uuid_string with e | uuid
      · simp [h1, h2] at h
      · rcases h3 : d.get_name with e | name
        · simp [h1, h2, h3] at h
        · simp [h1, h2, h3] at h
          subst h
          rfl
  · intro env id r h
    unfold get_vm at h
    rcases h1 : env.lookup_domain id with e | d
    · simp [h1] at h
    · rcases h2 : d.get_info with e | info
      · simp [h1, h2] at h
      · rcases h3 : d.get_name with e | name
        · simp [h1, h2, h3] at h
        · simp [h1, h2, h3] at h
          subst h
          exact ⟨d, rfl, rfl⟩
  · intro d xml h
    simp [gpuAttachedOf, h]
  · intro d e h
    simp [gpuAttachedOf, h]

/-- C10 witness: echoing of `gpu_required` on the concrete create and the
XML-substring computation on the concrete domain. -/
theorem gpu_attached_witness :
    respA.gpu_attached = reqA.gpu_required ∧
      gpuAttachedOf domainA =
        strContains "<hostdev" "<domain><devices><hostdev/></devices></domain>" :=
  ⟨gpu_attached_semantics.1 envOk reqA respA (by decide),
   gpu_attached_semantics.2.2.2.2.1 domainA
     "<domain><devices><hostdev/></devices></domain>" rfl⟩
